import Mathlib

/-!
Shallow embedding of `src/dl_plus/extractors/un1def/goodgame.py` (version 0.1.1):
the GoodGame stream/VOD/clip extractors for the dl-plus host application.

Decoded JSON payloads are modelled by `JSON`.  The host-framework primitives the
extractor calls (`_download_json`, `_extract_m3u8_formats`, `_search_regex`) are
supplied by an `Env`, and every outgoing fetch is recorded in a log, so that
claims about which fetches happen (and in which order) can be stated.
-/

/-- A decoded JSON value, i.e. what the host's `_download_json` hands back to the
extractor as a Python object (`None`/`bool`/`int`/`str`/`list`/`dict`). -/
inductive JSON where
  | null
  | bool (b : Bool)
  | num (n : Int)
  | str (s : String)
  | arr (elems : List JSON)
  | obj (fields : List (String × JSON))
deriving Repr, Inhabited

mutual

/-- Python `repr` of a decoded JSON value (used by the `{streams_info!r}` f-string). -/
def pyRepr : JSON → String
  | .null => "None"
  | .bool true => "True"
  | .bool false => "False"
  | .num n => toString n
  | .str s => "\x27" ++ s ++ "\x27"
  | .arr xs => "[" ++ pyReprList xs ++ "]"
  | .obj fs => "\x7b" ++ pyReprFields fs ++ "\x7d"

/-- `repr` of the elements of a Python list, comma-separated. -/
def pyReprList : List JSON → String
  | [] => ""
  | [x] => pyRepr x
  | x :: y :: rest => pyRepr x ++ ", " ++ pyReprList (y :: rest)

/-- `repr` of the entries of a Python dict, comma-separated. -/
def pyReprFields : List (String × JSON) → String
  | [] => ""
  | [(k, v)] => "\x27" ++ k ++ "\x27: " ++ pyRepr v
  | (k, v) :: kv :: rest =>
      "\x27" ++ k ++ "\x27: " ++ pyRepr v ++ ", " ++ pyReprFields (kv :: rest)

end

/-- Python `str()` of a decoded JSON value (used by f-strings and URL query encoding). -/
def pyStr : JSON → String
  | .str s => s
  | j => pyRepr j

/-- Python truthiness of a decoded JSON value (`if not src:` etc.). -/
def JSON.truthy : JSON → Bool
  | .null => false
  | .bool b => b
  | .num n => n != 0
  | .str s => !s.isEmpty
  | .arr xs => !xs.isEmpty
  | .obj fs => !fs.isEmpty

/-- Python `==` comparison of a decoded JSON value with a string literal
(`stream_status == 'Dead'`): only a `str` can compare equal to a `str`. -/
def JSON.eqStr : JSON → String → Bool
  | .str s, t => s == t
  | _, _ => false

/-- A failure escaping `_real_extract`: either a dl-plus `ExtractorError` (with its
`expected` flag) or an uncaught Python exception. -/
inductive ExtractError where
  | extractor (msg : String) (expected : Bool)
  | keyError (key : String)
  | typeError (msg : String)
  | attributeError (msg : String)
  | unboundLocal (name : String)
deriving Repr, DecidableEq

/-- Python subscript `j[key]` with a string key: `KeyError` on a dict without the
key, `TypeError` on anything that is not a dict. -/
def JSON.getItem : JSON → String → Except ExtractError JSON
  | .obj fields, key =>
      match fields.lookup key with
      | some v => .ok v
      | none => .error (.keyError key)
  | _, _ => .error (.typeError "object is not subscriptable")

/-- Python `j.get(key)`: `None` when the key is absent, `AttributeError` when `j`
is not a dict. -/
def JSON.dictGet : JSON → String → Except ExtractError JSON
  | .obj fields, key => .ok ((fields.lookup key).getD .null)
  | _, _ => .error (.attributeError "object has no attribute get")

/-- Python `j.get(key, default)`. -/
def JSON.dictGetD : JSON → String → JSON → Except ExtractError JSON
  | .obj fields, key, d => .ok ((fields.lookup key).getD d)
  | _, _, _ => .error (.attributeError "object has no attribute get")

/-- One outgoing request made by the extractor: a JSON API fetch (through
`_fetch`, after resolving the endpoint against `_API_BASE_URL`) or an m3u8
format-probe (`_extract_m3u8_formats`). -/
inductive Fetch where
  | api (url : String) (query : List (String × String))
  | m3u8Probe (url : String)
deriving Repr, DecidableEq

/-- `true` exactly on m3u8 format-probe fetches. -/
def Fetch.isProbe : Fetch → Bool
  | .m3u8Probe _ => true
  | .api _ _ => false

/-- Modelled from the spec: a playable format descriptor as produced by the host's
`_extract_m3u8_formats` (host code, not part of this repository).  The spec only
requires formats to admit "a stable quality ordering ... (descending preference)",
so a format carries an opaque URL and a quality rank. -/
structure Format where
  url : String
  quality : Int
deriving Repr, DecidableEq

/-- The host-framework primitives the extractor calls, supplied as an environment:
`api url query` is the decoded body `_download_json` returns for that request,
`m3u8 url` is the format list `_extract_m3u8_formats(url, ..., fatal=False)`
yields (empty on a failed fetch/parse), and `searchSrc html` is the capture of
the host `_search_regex` for pattern `src="[^"?]+\?([^"&#?]+)"` on `html`
(`none` when the pattern does not match). -/
structure Env where
  api : String → List (String × String) → JSON
  m3u8 : String → List Format
  searchSrc : String → Option String

/-- The extractor computation: threads the fetch log, and either returns a value
or escapes with an `ExtractError`.  The log survives a failure, so claims about
which fetches a failing resolution performed are statable. -/
def M (α : Type) : Type := List Fetch → Except ExtractError α × List Fetch

instance : Monad M where
  pure a := fun log => (Except.ok a, log)
  bind x f := fun log =>
    match x log with
    | (Except.ok a, log2) => f a log2
    | (Except.error e, log2) => (Except.error e, log2)

/-- Raise an error (the fetch log so far is kept). -/
def M.throw (e : ExtractError) : M α := fun log => (Except.error e, log)

/-- Record one outgoing fetch. -/
def M.tell (f : Fetch) : M Unit := fun log => (Except.ok (), log ++ [f])

/-- Lift a pure fallible computation into `M`. -/
def liftE : Except ExtractError α → M α
  | .ok a => pure a
  | .error e => M.throw e

/-- `GoodGameBaseExtractor._API_BASE_URL`. -/
def API_BASE_URL : String := "https://goodgame.ru/api/"

/-- `GoodGameVODExtractor._STORAGE_BASE_URL`. -/
def STORAGE_BASE_URL : String := "https://storage2.goodgame.ru/"

/-- `GoodGameStreamExtractor._M3U8_URL_TEMPLATES` (braces of the Python
`str.format` placeholder written as `\x7b`/`\x7d`). -/
def M3U8_URL_TEMPLATES : List String :=
  ["https://hls.goodgame.ru/manifest/\x7bsrc\x7d_master.m3u8",
   "https://hlss.goodgame.ru/hls/\x7bsrc\x7d.m3u8"]

/-- `GoodGameVODExtractor._THUMBNAIL_KEYS`. -/
def THUMBNAIL_KEYS : List String := ["jpgSmall", "jpgFull", "png"]

/-- Python `s.startswith(p)` (structurally recursive, unlike `String.startsWith`,
so that concrete runs reduce inside the kernel). -/
def pyStartsWith (s p : String) : Bool := p.data.isPrefixOf s.data

/-- Replace every occurrence of `pat` in the character list, scanning left to
right; the fuel argument (instantiated with the list length) only makes the
recursion structural. -/
def replaceAux (pat rep : List Char) : Nat → List Char → List Char
  | 0, l => l
  | _ + 1, [] => []
  | fuel + 1, c :: cs =>
      if pat.isPrefixOf (c :: cs) then rep ++ replaceAux pat rep fuel ((c :: cs).drop pat.length)
      else c :: replaceAux pat rep fuel cs

/-- Python `s.replace(pat, rep)` restricted to a non-empty pattern (an empty
pattern leaves `s` unchanged, which is all `str.format` substitution needs). -/
def pyReplace (s pat rep : String) : String :=
  if pat.data.isEmpty then s
  else ⟨replaceAux pat.data rep.data s.data.length s.data⟩

/-- Modelled from the spec: `urljoin` is imported from the host's utils module
(`ytdl.import_from('utils', 'urljoin')`) and is not part of this repository.
The spec treats endpoint URLs as "an absolute URL or an URL relative to the
`_API_BASE_URL`"; both bases used here end in `/` and name the site root, so an
absolute URL is kept, a root-relative or relative path is appended to the base. -/
def urljoin (base rel : String) : String :=
  if pyStartsWith rel "http" then rel
  else if pyStartsWith rel "/" then base ++ rel.drop 1
  else base ++ rel

/-- Modelled from the spec: host `urljoin` applied to a decoded JSON value (the
host utility returns `None` when its argument is not a non-empty string). -/
def urljoinJ (base : String) (rel : JSON) : JSON :=
  match rel with
  | .str s => if s.isEmpty then .null else .str (urljoin base s)
  | _ => .null

/-- `GoodGameBaseExtractor._fetch`: resolve the endpoint against `_API_BASE_URL`
when it is not absolute, record the request, and return the decoded JSON body. -/
def fetch (env : Env) (endpoint : String) (query : List (String × String)) : M JSON := do
  let endpoint := if pyStartsWith endpoint "http" then endpoint else urljoin API_BASE_URL endpoint
  M.tell (.api endpoint query)
  pure (env.api endpoint query)

/-- `GoodGameBaseExtractor._fetch_player_info`: `_fetch('player', src=src, fmt='json', ...)`.
The query value is Python-stringified, as `urlencode` would do. -/
def fetch_player_info (env : Env) (src : JSON) : M JSON :=
  fetch env "player" [("src", pyStr src), ("fmt", "json")]

/-- `GoodGameStreamExtractor._fetch_stream_info`: fetch `getchannelstatus`;
a list response means the stream is not found (expected error), a dict with
exactly one entry yields that entry's value (`next(iter(values()))`), anything
else is an unexpected response. -/
def fetch_stream_info (env : Env) (channel_key : JSON) : M JSON := do
  let streams_info ← fetch env "getchannelstatus" [("id", pyStr channel_key), ("fmt", "json")]
  match streams_info with
  | .arr _ => M.throw (.extractor (pyStr channel_key ++ " is not found") true)
  | .obj [(_, v)] => pure v
  | j => M.throw (.extractor ("Unexpected response: " ++ pyRepr j) false)

/-- Python `template.format(src=src)` for the manifest URL templates (the only
placeholder is `\x7bsrc\x7d`). -/
def format_src (template src : String) : String :=
  pyReplace template "\x7bsrc\x7d" src

/-- The `for m3u8_url_template in self._M3U8_URL_TEMPLATES: ... else: raise` loop
(lines 99-106): probe each template in order, accept the first non-empty format
list, raise `ExtractorError('failed to fetch/parse m3u8')` when all are empty. -/
def try_templates (env : Env) (src : JSON) : List String → M (List Format)
  | [] => M.throw (.extractor "failed to fetch/parse m3u8" false)
  | template :: rest => do
      let m3u8_url := format_src template (pyStr src)
      M.tell (.m3u8Probe m3u8_url)
      let formats := env.m3u8 m3u8_url
      if formats.isEmpty then try_templates env src rest else pure formats

/-- Modelled from the spec: the host's `_sort_formats` (host code, not part of
this repository) sorts the format list in place; the spec requires "a stable
quality ordering ... (descending preference)", i.e. a stable sort descending by
quality. -/
def sort_formats (formats : List Format) : List Format :=
  formats.mergeSort (fun a b => b.quality ≤ a.quality)

/-- The value `GoodGameStreamExtractor._real_extract` returns (lines 108-118). -/
structure StreamResult where
  id : JSON
  title : JSON
  description : JSON
  creator : JSON
  uploader : JSON
  uploader_id : JSON
  thumbnail : JSON
  is_live : Bool
  formats : List Format
deriving Repr

/-- Lines 107-118 of `GoodGameStreamExtractor._real_extract`: sort the probed
formats (`self._sort_formats`) and build the returned info dict, reading its
fields in the Python dict literal's evaluation order.  Makes no fetch, so it is
a pure `Except` computation. -/
def assemble_result (channel_key stream_info player_info : JSON)
    (formats : List Format) : Except ExtractError StreamResult := do
  let formats := sort_formats formats
  let title ← stream_info.getItem "title"
  let description ← stream_info.dictGet "description"
  let creator ← player_info.dictGet "streamer_name"
  let uploader ← player_info.dictGet "streamer_name"
  let uploader_id ← player_info.dictGet "streamer_id"
  let thumbnail ← stream_info.dictGet "img"
  pure { id := channel_key, title := title, description := description,
         creator := creator, uploader := uploader, uploader_id := uploader_id,
         thumbnail := thumbnail, is_live := true, formats := formats }

/-- Lines 91-118 of `GoodGameStreamExtractor._real_extract`: the tail after
`channel_key`, `src`, `stream_info` and `player_info` are all known — status
check, manifest-template fallback, then `assemble_result`. -/
def stream_finish (env : Env) (channel_key src stream_info player_info : JSON) :
    M StreamResult := do
  let stream_status ←
    match stream_info.getItem "status" with
    | .ok v => pure v
    | .error (.keyError _) => M.throw (.extractor "Stream status is not found" false)
    | .error e => M.throw e
  if stream_status.eqStr "Dead" then
    M.throw (.extractor (pyStr channel_key ++ " is offline") true)
  else if !stream_status.eqStr "Live" then
    M.throw (.extractor ("Unexpected stream status: " ++ pyStr stream_status) false)
  else do
    let formats ← try_templates env src M3U8_URL_TEMPLATES
    liftE (assemble_result channel_key stream_info player_info formats)

/-- `GoodGameStreamExtractor._real_extract`, entered with the two regex groups of
`DLP_REL_URL` (`channel_key` and `src`; an unmatched group is `None`, modelled as
`JSON.null`).  `stream_info` starts unbound and is assigned in the branches, so
it is threaded as an `Option`; reading it while still unbound mirrors Python's
`UnboundLocalError` (unreachable for URLs matching the extractor's regex, where
exactly one group matches and is non-empty). -/
def stream_real_extract (env : Env) (channel_key0 src0 : JSON) : M StreamResult := do
  let siSrc : Option JSON × JSON ←
    if !src0.truthy then do
      let stream_info ← fetch_stream_info env channel_key0
      let embed ←
        match stream_info.getItem "embed" with
        | .ok v => pure v
        | .error (.keyError _) => M.throw (.extractor "Stream embed HTML is not found" false)
        | .error e => M.throw e
      let embedStr ←
        match embed with
        | .str s => pure s
        | _ => M.throw (.typeError "expected string or bytes-like object")
      match env.searchSrc embedStr with
      | some s => pure (some stream_info, JSON.str s)
      | none => M.throw (.extractor "Unable to extract src" false)
    else
      pure (none, src0)
  let stream_info0 := siSrc.1
  let src := siSrc.2
  let player_info ← fetch_player_info env src
  let ckSi : JSON × Option JSON ←
    if !channel_key0.truthy then do
      let channel_key ←
        match player_info.getItem "channel_key" with
        | .ok v => pure v
        | .error (.keyError _) => M.throw (.extractor "channel_key is not found" true)
        | .error e => M.throw e
      let stream_info ← fetch_stream_info env channel_key
      pure (channel_key, some stream_info)
    else
      pure (channel_key0, stream_info0)
  match ckSi.2 with
  | some stream_info => stream_finish env ckSi.1 src stream_info player_info
  | none => M.throw (.unboundLocal "stream_info")

/-- A thumbnail entry built by `GoodGameVODExtractor._real_extract` (lines 143-149). -/
structure Thumbnail where
  url : String
  preference : Nat
deriving Repr, DecidableEq

/-- The `for vod_info in vods_info['vods']: if vod_info['moddate'] == timestamp:
break else: raise` search over the decoded `vods` list (lines 135-139). -/
def find_vod_loop (timestamp : String) : List JSON → Except ExtractError JSON
  | [] => .error (.extractor "vod info not found" false)
  | vod_info :: rest =>
      match vod_info.getItem "moddate" with
      | .ok m => if m.eqStr timestamp then .ok vod_info else find_vod_loop timestamp rest
      | .error e => .error e

/-- The same search applied to the raw `vods_info['vods']` value: Python iterates
a list element-wise; an empty dict or empty string iterates zero times (so the
loop's `else` raises `vod info not found`), a non-empty dict or string yields
strings whose `['moddate']` subscript is a `TypeError`, anything else is not
iterable. -/
def find_vod (timestamp : String) : JSON → Except ExtractError JSON
  | .arr vods => find_vod_loop timestamp vods
  | .obj [] => .error (.extractor "vod info not found" false)
  | .str "" => .error (.extractor "vod info not found" false)
  | .obj _ => .error (.typeError "string indices must be integers")
  | .str _ => .error (.typeError "string indices must be integers")
  | _ => .error (.typeError "object is not iterable")

/-- The `for preference, key in enumerate(self._THUMBNAIL_KEYS)` loop (lines
143-149): skip falsy preview URLs, absolutize relative ones, keep the enumerate
index as the preference. -/
def thumbnails_loop (previewpath : JSON) (preference : Nat) :
    List String → Except ExtractError (List Thumbnail)
  | [] => .ok []
  | key :: rest => do
      let url ← previewpath.dictGet key
      if !url.truthy then
        thumbnails_loop previewpath (preference + 1) rest
      else
        match url with
        | .str s => do
            let s := if pyStartsWith s "http" then s else urljoin STORAGE_BASE_URL s
            let tail ← thumbnails_loop previewpath (preference + 1) rest
            pure (⟨s, preference⟩ :: tail)
        | _ => .error (.attributeError "object has no attribute startswith")

/-- The value `GoodGameVODExtractor._real_extract` returns (lines 151-161). -/
structure VODResult where
  id : String
  title : String
  display_id : JSON
  creator : JSON
  uploader : JSON
  uploader_id : JSON
  thumbnails : List Thumbnail
  is_live : Bool
  url : JSON
deriving Repr

/-- `GoodGameVODExtractor._real_extract`, entered with the `src` and `timestamp`
regex groups of its `DLP_REL_URL` (both always match and are plain strings). -/
def vod_real_extract (env : Env) (src timestamp : String) : M VODResult := do
  let vods_info ← fetch env (STORAGE_BASE_URL ++ "api/json/channel/video") [("streamId", src)]
  let vods ← liftE (vods_info.getItem "vods")
  let vod_info ← liftE (find_vod timestamp vods)
  let player_info ← fetch_player_info env (.str src)
  let previewpath ← liftE (vod_info.dictGetD "previewpath" (.obj []))
  let thumbnails ← liftE (thumbnails_loop previewpath 0 THUMBNAIL_KEYS)
  let channel_key ← liftE (player_info.dictGet "channel_key")
  let creator ← liftE (player_info.dictGet "streamer_name")
  let uploader ← liftE (player_info.dictGet "streamer_name")
  let uploader_id ← liftE (player_info.dictGet "streamer_id")
  let mp4path ← liftE (vod_info.getItem "mp4path")
  pure { id := pyStr (if channel_key.truthy then channel_key else .str src) ++ " - " ++ timestamp,
         title := timestamp, display_id := channel_key,
         creator := creator, uploader := uploader, uploader_id := uploader_id,
         thumbnails := thumbnails, is_live := false,
         url := urljoinJ STORAGE_BASE_URL mp4path }

/-- The value `GoodGameClipExtractor._real_extract` returns (lines 175-185). -/
structure ClipResult where
  id : String
  title : JSON
  creator : JSON
  uploader : JSON
  thumbnail : JSON
  view_count : JSON
  timestamp : JSON
  is_live : Bool
  url : JSON
deriving Repr

/-- `GoodGameClipExtractor._real_extract`, entered with the `id` regex group of
its `DLP_REL_URL` (a non-empty digit string).  The clip-info fields are read in
the evaluation order of the Python dict literal: the optional `.get` fields
first, the mandatory `['src']` subscript last. -/
def clip_real_extract (env : Env) (clip_id : String) : M ClipResult := do
  let clip_info ← fetch env ("https://goodgame.ru/ajax/clip/" ++ clip_id) []
  let title ← liftE (clip_info.dictGetD "title" (.str clip_id))
  let creator ← liftE (clip_info.dictGet "streamer")
  let uploader ← liftE (clip_info.dictGet "author")
  let thumbnail ← liftE (clip_info.dictGet "thumbnail")
  let view_count ← liftE (clip_info.dictGet "views")
  let timestamp ← liftE (clip_info.dictGet "created")
  let url ← liftE (clip_info.getItem "src")
  pure { id := clip_id, title := title, creator := creator, uploader := uploader,
         thumbnail := thumbnail, view_count := view_count, timestamp := timestamp,
         is_live := false, url := url }

/-- A stream-info payload with the given status field, used by the concrete test
environments below. -/
def mkSi (status : JSON) : JSON :=
  .obj [("status", status), ("title", .str "T"),
        ("embed", .str "<iframe src=\"https://goodgame.ru/player?abc\"></iframe>"),
        ("img", .str "https://img.example/p.jpg")]

/-- A player-info payload naming channel `foo`. -/
def playerFoo : JSON :=
  .obj [("channel_key", .str "foo"), ("streamer_name", .str "S"), ("streamer_id", .num 7)]

/-- A concrete environment for channel `foo` / stream key `abc` whose status is
the given value; the first manifest template's probe yields two formats. -/
def mkEnv (status : JSON) : Env :=
  { api := fun url _q =>
      if url = "https://goodgame.ru/api/getchannelstatus" then .obj [("12345", mkSi status)]
      else if url = "https://goodgame.ru/api/player" then playerFoo
      else .null,
    m3u8 := fun url =>
      if url = "https://hls.goodgame.ru/manifest/abc_master.m3u8" then
        [{ url := "u2", quality := 720 }, { url := "u1", quality := 480 }]
      else [],
    searchSrc := fun _ => some "abc" }

/-- Environment in which the channel-status endpoint returns an empty array. -/
def envNF : Env :=
  { api := fun url _q =>
      if url = "https://goodgame.ru/api/getchannelstatus" then .arr []
      else playerFoo,
    m3u8 := fun _ => [], searchSrc := fun _ => some "abc" }

/-- A VOD entry carrying `mp4path` (what the code actually reads). -/
def vodInfoMp4 : JSON :=
  .obj [("moddate", .str "2024"), ("mp4path", .str "/v.mp4"),
        ("previewpath", .obj [("jpgSmall", .str "/a.jpg")])]

/-- A VOD entry carrying `m3u8path` but no `mp4path`. -/
def vodInfoM3u8 : JSON :=
  .obj [("moddate", .str "2024"), ("m3u8path", .str "/v.m3u8")]

/-- A concrete VOD environment whose vods list holds the given single entry. -/
def mkVodEnv (vod : JSON) : Env :=
  { api := fun url _q =>
      if url = "https://storage2.goodgame.ru/api/json/channel/video" then
        .obj [("vods", .arr [vod])]
      else if url = "https://goodgame.ru/api/player" then playerFoo
      else .null,
    m3u8 := fun _ => [], searchSrc := fun _ => none }

/-- A clip-info payload with `src`, a title and a view count. -/
def clipInfo1 : JSON :=
  .obj [("src", .str "https://clips.example/c.mp4"), ("title", .str "C"), ("views", .num 5)]

/-- A concrete clip environment serving `clipInfo1` for clip 77. -/
def envClip : Env :=
  { api := fun url _q =>
      if url = "https://goodgame.ru/ajax/clip/77" then clipInfo1 else .null,
    m3u8 := fun _ => [], searchSrc := fun _ => none }

theorem M.bind_eval (x : M α) (f : α → M β) (log : List Fetch) :
    (x >>= f) log =
      match x log with
      | (Except.ok a, log2) => f a log2
      | (Except.error e, log2) => (Except.error e, log2) := rfl

theorem M.pure_eval (a : α) (log : List Fetch) :
    (pure a : M α) log = (Except.ok a, log) := rfl

theorem M.throw_eval (e : ExtractError) (log : List Fetch) :
    (M.throw e : M α) log = (Except.error e, log) := rfl

theorem M.tell_eval (f : Fetch) (log : List Fetch) :
    M.tell f log = (Except.ok (), log ++ [f]) := rfl

theorem fetch_gcs_eval (env : Env) (q : List (String × String)) (log : List Fetch) :
    fetch env "getchannelstatus" q log =
      (.ok (env.api "https://goodgame.ru/api/getchannelstatus" q),
       log ++ [.api "https://goodgame.ru/api/getchannelstatus" q]) := rfl

theorem fetch_player_eval (env : Env) (q : List (String × String)) (log : List Fetch) :
    fetch env "player" q log =
      (.ok (env.api "https://goodgame.ru/api/player" q),
       log ++ [.api "https://goodgame.ru/api/player" q]) := rfl

theorem fetch_storage_eval (env : Env) (q : List (String × String)) (log : List Fetch) :
    fetch env (STORAGE_BASE_URL ++ "api/json/channel/video") q log =
      (.ok (env.api "https://storage2.goodgame.ru/api/json/channel/video" q),
       log ++ [.api "https://storage2.goodgame.ru/api/json/channel/video" q]) := rfl

theorem fetch_clip_eval (env : Env) (clip_id : String) (q : List (String × String))
    (log : List Fetch) :
    fetch env ("https://goodgame.ru/ajax/clip/" ++ clip_id) q log =
      (.ok (env.api ("https://goodgame.ru/ajax/clip/" ++ clip_id) q),
       log ++ [.api ("https://goodgame.ru/ajax/clip/" ++ clip_id) q]) := rfl

theorem exBind_ok (a : A) (f : A → Except ExtractError B) :
    (Except.ok a >>= f) = f a := rfl

theorem exBind_error (e : ExtractError) (f : A → Except ExtractError B) :
    ((Except.error e : Except ExtractError A) >>= f) = Except.error e := rfl

theorem exMap_ok (g : A → B) (a : A) :
    (g <$> (Except.ok a : Except ExtractError A)) = Except.ok (g a) := rfl

theorem exMap_error (g : A → B) (e : ExtractError) :
    (g <$> (Except.error e : Except ExtractError A)) = Except.error e := rfl

theorem sort_formats_perm (fs : List Format) : (sort_formats fs).Perm fs :=
  List.mergeSort_perm fs _

theorem sort_formats_sorted (fs : List Format) :
    (sort_formats fs).Pairwise (fun a b => b.quality ≤ a.quality) := by
  have h := @List.sorted_mergeSort Format
    (fun a b : Format => decide (b.quality ≤ a.quality))
    (fun a b c hab hbc => by
      simp only [decide_eq_true_eq] at *
      exact le_trans hbc hab)
    (fun a b => by
      simp only [Bool.or_eq_true, decide_eq_true_eq]
      exact le_total b.quality a.quality)
    fs
  exact h.imp (fun hab => by simpa using hab)

theorem sort_formats_stable (fs c : List Format)
    (hc : c.Pairwise (fun a b => b.quality ≤ a.quality)) (hsub : c.Sublist fs) :
    c.Sublist (sort_formats fs) := by
  refine @List.sublist_mergeSort Format
    (fun a b : Format => decide (b.quality ≤ a.quality))
    fs
    (fun a b c hab hbc => by
      simp only [decide_eq_true_eq] at *
      exact le_trans hbc hab)
    (fun a b => by
      simp only [Bool.or_eq_true, decide_eq_true_eq]
      exact le_total b.quality a.quality)
    c ?_ hsub
  exact hc.imp (fun hab => by simpa using hab)

theorem assemble_result_shape (channel_key stream_info player_info : JSON)
    (formats : List Format) (r : StreamResult)
    (h : assemble_result channel_key stream_info player_info formats = .ok r) :
    r.id = channel_key ∧ r.is_live = true ∧ r.formats = sort_formats formats := by
  unfold assemble_result at h
  cases hti : stream_info.getItem "title" with
  | error e => simp [hti, exBind_error] at h
  | ok t =>
    cases hde : stream_info.dictGet "description" with
    | error e => simp [hti, hde, exBind_ok, exBind_error] at h
    | ok d =>
      cases hcr : player_info.dictGet "streamer_name" with
      | error e => simp [hti, hde, hcr, exBind_ok, exBind_error] at h
      | ok c =>
        cases hui : player_info.dictGet "streamer_id" with
        | error e => simp [hti, hde, hcr, hui, exBind_ok, exBind_error] at h
        | ok uid =>
          cases hth : stream_info.dictGet "img" with
          | error e =>
            simp [hti, hde, hcr, hui, hth, exBind_ok, exBind_error, exMap_error] at h
          | ok th =>
            simp only [hti, hde, hcr, hui, hth, exBind_ok, exMap_ok, Except.ok.injEq] at h
            cases h
            exact ⟨rfl, rfl, rfl⟩

theorem assemble_result_eval (channel_key stream_info player_info : JSON)
    (formats : List Format) (t d c uid th : JSON)
    (hti : stream_info.getItem "title" = .ok t)
    (hde : stream_info.dictGet "description" = .ok d)
    (hcr : player_info.dictGet "streamer_name" = .ok c)
    (hui : player_info.dictGet "streamer_id" = .ok uid)
    (hth : stream_info.dictGet "img" = .ok th) :
    assemble_result channel_key stream_info player_info formats =
      .ok { id := channel_key, title := t, description := d, creator := c,
            uploader := c, uploader_id := uid, thumbnail := th, is_live := true,
            formats := sort_formats formats } := by
  unfold assemble_result
  simp [hti, hde, hcr, hui, hth, exBind_ok, exMap_ok]

theorem pyStr_str (s : String) : pyStr (.str s) = s := rfl

theorem eqStr_str (s t : String) : JSON.eqStr (.str s) t = (s == t) := rfl

theorem truthy_str (s : String) : (JSON.str s).truthy = !s.isEmpty := rfl

theorem truthy_null : JSON.null.truthy = false := rfl

theorem liftE_eval (x : Except ExtractError A) (log : List Fetch) :
    liftE x log = (x, log) := by cases x <;> rfl

theorem M.bind_ok_inv (x : M A) (f : A → M B) (log : List Fetch) (b : B)
    (h : ((x >>= f) log).1 = .ok b) :
    ∃ a log2, x log = (.ok a, log2) ∧ ((f a log2).1 = .ok b) := by
  rw [M.bind_eval] at h
  rcases hx : x log with ⟨ea, log2⟩
  cases ea with
  | ok a =>
    refine ⟨a, log2, rfl, ?_⟩
    rw [hx] at h
    exact h
  | error e =>
    rw [hx] at h
    simp at h

/-- Entering `_real_extract` through a player URL (`src` group matched, non-empty;
`channel_key` group `None`): fetch player info, read `channel_key` from it, fetch
stream info by that key, and continue with the shared tail. -/
theorem stream_player_eq (env : Env) (srcs : String) (ckv siv : JSON) (k : String)
    (hs : srcs ≠ "")
    (hp : (env.api "https://goodgame.ru/api/player" [("src", srcs), ("fmt", "json")]).getItem
        "channel_key" = .ok ckv)
    (hsi : env.api "https://goodgame.ru/api/getchannelstatus" [("id", pyStr ckv), ("fmt", "json")]
        = .obj [(k, siv)]) :
    stream_real_extract env .null (.str srcs) [] =
      stream_finish env ckv (.str srcs) siv
        (env.api "https://goodgame.ru/api/player" [("src", srcs), ("fmt", "json")])
        [.api "https://goodgame.ru/api/player" [("src", srcs), ("fmt", "json")],
         .api "https://goodgame.ru/api/getchannelstatus" [("id", pyStr ckv), ("fmt", "json")]] := by
  simp [stream_real_extract, fetch_player_info, fetch_stream_info, M.bind_eval,
        fetch_player_eval, fetch_gcs_eval, M.pure_eval, M.throw_eval, M.tell_eval,
        liftE_eval, pyStr_str, truthy_str, truthy_null, String.isEmpty_iff, hs, hp, hsi]

/-- Entering `_real_extract` through a channel URL (`channel_key` group matched,
non-empty; `src` group `None`): fetch stream info by the channel key, derive
`src` from the embed HTML via the host regex search, fetch player info, and
continue with the shared tail. -/
theorem stream_channel_eq (env : Env) (ck html srcs : String) (siv : JSON) (k : String)
    (hck : ck ≠ "")
    (hsi : env.api "https://goodgame.ru/api/getchannelstatus" [("id", ck), ("fmt", "json")]
        = .obj [(k, siv)])
    (hembed : siv.getItem "embed" = .ok (.str html))
    (hsearch : env.searchSrc html = some srcs) :
    stream_real_extract env (.str ck) .null [] =
      stream_finish env (.str ck) (.str srcs) siv
        (env.api "https://goodgame.ru/api/player" [("src", srcs), ("fmt", "json")])
        [.api "https://goodgame.ru/api/getchannelstatus" [("id", ck), ("fmt", "json")],
         .api "https://goodgame.ru/api/player" [("src", srcs), ("fmt", "json")]] := by
  simp [stream_real_extract, fetch_player_info, fetch_stream_info, M.bind_eval,
        fetch_player_eval, fetch_gcs_eval, M.pure_eval, M.throw_eval, M.tell_eval,
        liftE_eval, pyStr_str, truthy_str, truthy_null, String.isEmpty_iff,
        hck, hsi, hembed, hsearch]

/-- A `'Dead'` stream status makes the shared tail fail at once with the expected
offline error; no format probe is recorded. -/
theorem stream_finish_dead (env : Env) (channel_key src stream_info player_info : JSON)
    (log : List Fetch)
    (hst : stream_info.getItem "status" = .ok (.str "Dead")) :
    stream_finish env channel_key src stream_info player_info log =
      (.error (.extractor (pyStr channel_key ++ " is offline") true), log) := by
  simp [stream_finish, M.bind_eval, M.pure_eval, M.throw_eval, eqStr_str, hst]

/-- A present status that is neither `'Live'` nor `'Dead'` makes the shared tail
fail with the non-expected unexpected-status error; no format probe is recorded. -/
theorem stream_finish_unexpected (env : Env) (channel_key src stream_info player_info : JSON)
    (log : List Fetch) (st : JSON)
    (hst : stream_info.getItem "status" = .ok st)
    (hdead : st.eqStr "Dead" = false) (hlive : st.eqStr "Live" = false) :
    stream_finish env channel_key src stream_info player_info log =
      (.error (.extractor ("Unexpected stream status: " ++ pyStr st) false), log) := by
  simp [stream_finish, M.bind_eval, M.pure_eval, M.throw_eval, hst, hdead, hlive]

/-- With a `'Live'` status and a non-empty format list from the first template's
probe, the tail probes only that first template and assembles the result from
its formats. -/
theorem stream_finish_live_first (env : Env) (channel_key src stream_info player_info : JSON)
    (log : List Fetch) (f : Format) (fs : List Format)
    (hst : stream_info.getItem "status" = .ok (.str "Live"))
    (hm0 : env.m3u8 (format_src "https://hls.goodgame.ru/manifest/\x7bsrc\x7d_master.m3u8"
        (pyStr src)) = f :: fs) :
    stream_finish env channel_key src stream_info player_info log =
      (assemble_result channel_key stream_info player_info (f :: fs),
       log ++ [.m3u8Probe (format_src "https://hls.goodgame.ru/manifest/\x7bsrc\x7d_master.m3u8"
         (pyStr src))]) := by
  simp [stream_finish, try_templates, M3U8_URL_TEMPLATES, M.bind_eval, M.pure_eval,
        M.throw_eval, M.tell_eval, liftE_eval, eqStr_str, hst, hm0]

/-- With a `'Live'` status, an empty first probe and a non-empty second probe,
the tail probes both templates in order and assembles the result from the second
template's formats. -/
theorem stream_finish_live_second (env : Env) (channel_key src stream_info player_info : JSON)
    (log : List Fetch) (f : Format) (fs : List Format)
    (hst : stream_info.getItem "status" = .ok (.str "Live"))
    (hm0 : env.m3u8 (format_src "https://hls.goodgame.ru/manifest/\x7bsrc\x7d_master.m3u8"
        (pyStr src)) = [])
    (hm1 : env.m3u8 (format_src "https://hlss.goodgame.ru/hls/\x7bsrc\x7d.m3u8"
        (pyStr src)) = f :: fs) :
    stream_finish env channel_key src stream_info player_info log =
      (assemble_result channel_key stream_info player_info (f :: fs),
       log ++ [.m3u8Probe (format_src "https://hls.goodgame.ru/manifest/\x7bsrc\x7d_master.m3u8"
                 (pyStr src)),
               .m3u8Probe (format_src "https://hlss.goodgame.ru/hls/\x7bsrc\x7d.m3u8"
                 (pyStr src))]) := by
  simp [stream_finish, try_templates, M3U8_URL_TEMPLATES, M.bind_eval, M.pure_eval,
        M.throw_eval, M.tell_eval, liftE_eval, eqStr_str, hst, hm0, hm1]

/-- With a `'Live'` status and both probes empty, the tail probes both templates
in order and fails with the non-expected m3u8 error. -/
theorem stream_finish_live_exhausted (env : Env)
    (channel_key src stream_info player_info : JSON) (log : List Fetch)
    (hst : stream_info.getItem "status" = .ok (.str "Live"))
    (hm0 : env.m3u8 (format_src "https://hls.goodgame.ru/manifest/\x7bsrc\x7d_master.m3u8"
        (pyStr src)) = [])
    (hm1 : env.m3u8 (format_src "https://hlss.goodgame.ru/hls/\x7bsrc\x7d.m3u8"
        (pyStr src)) = []) :
    stream_finish env channel_key src stream_info player_info log =
      (.error (.extractor "failed to fetch/parse m3u8" false),
       log ++ [.m3u8Probe (format_src "https://hls.goodgame.ru/manifest/\x7bsrc\x7d_master.m3u8"
                 (pyStr src)),
               .m3u8Probe (format_src "https://hlss.goodgame.ru/hls/\x7bsrc\x7d.m3u8"
                 (pyStr src))]) := by
  simp [stream_finish, try_templates, M3U8_URL_TEMPLATES, M.bind_eval, M.pure_eval,
        M.throw_eval, M.tell_eval, liftE_eval, eqStr_str, hst, hm0, hm1]

/-- Inversion: any successful run of the shared tail carries the channel key as
its id, is marked live, and carries a sorted format list. -/
theorem stream_finish_ok (env : Env) (channel_key src stream_info player_info : JSON)
    (log : List Fetch) (r : StreamResult)
    (h : (stream_finish env channel_key src stream_info player_info log).1 = .ok r) :
    r.id = channel_key ∧ r.is_live = true ∧ ∃ fs, r.formats = sort_formats fs := by
  unfold stream_finish at h
  cases hgi : stream_info.getItem "status" with
  | error e =>
    rw [hgi] at h
    cases e <;> simp [M.bind_eval, M.throw_eval] at h
  | ok v =>
    rw [hgi] at h
    simp only [M.bind_eval, M.pure_eval] at h
    by_cases hdead : v.eqStr "Dead" = true
    · simp [hdead, M.throw_eval] at h
    · simp only [Bool.not_eq_true] at hdead
      by_cases hlive : v.eqStr "Live" = true
      · simp only [hdead, hlive, Bool.not_true, Bool.false_eq_true, if_false] at h
        obtain ⟨fs, log2, htt, h2⟩ := M.bind_ok_inv _ _ _ _ h
        rw [liftE_eval] at h2
        obtain ⟨hid, hlive2, hfs⟩ := assemble_result_shape _ _ _ _ _ h2
        exact ⟨hid, hlive2, fs, hfs⟩
      · simp only [Bool.not_eq_true] at hlive
        simp [hdead, hlive, M.throw_eval] at h

/-- C2: for every stream resolution in which the fetched stream status field
equals the offline value `'Dead'` — entered through a channel URL or through a
player URL — resolution fails with the expected offline error naming the
channel, and the fetch log holds no manifest format-probe at all. -/
theorem C2_offline_fails_without_probe (env : Env) :
    (∀ ck html srcs k siv, ck ≠ "" →
      env.api "https://goodgame.ru/api/getchannelstatus" [("id", ck), ("fmt", "json")]
        = .obj [(k, siv)] →
      siv.getItem "embed" = .ok (.str html) →
      env.searchSrc html = some srcs →
      siv.getItem "status" = .ok (.str "Dead") →
      stream_real_extract env (.str ck) .null [] =
        (.error (.extractor (ck ++ " is offline") true),
         [.api "https://goodgame.ru/api/getchannelstatus" [("id", ck), ("fmt", "json")],
          .api "https://goodgame.ru/api/player" [("src", srcs), ("fmt", "json")]])
      ∧ (stream_real_extract env (.str ck) .null []).2.filter Fetch.isProbe = [])
    ∧ (∀ srcs ckv k siv, srcs ≠ "" →
      (env.api "https://goodgame.ru/api/player" [("src", srcs), ("fmt", "json")]).getItem
        "channel_key" = .ok ckv →
      env.api "https://goodgame.ru/api/getchannelstatus" [("id", pyStr ckv), ("fmt", "json")]
        = .obj [(k, siv)] →
      siv.getItem "status" = .ok (.str "Dead") →
      stream_real_extract env .null (.str srcs) [] =
        (.error (.extractor (pyStr ckv ++ " is offline") true),
         [.api "https://goodgame.ru/api/player" [("src", srcs), ("fmt", "json")],
          .api "https://goodgame.ru/api/getchannelstatus" [("id", pyStr ckv), ("fmt", "json")]])
      ∧ (stream_real_extract env .null (.str srcs) []).2.filter Fetch.isProbe = []) := by
  constructor
  · intro ck html srcs k siv hck hsi hembed hsearch hst
    rw [stream_channel_eq env ck html srcs siv k hck hsi hembed hsearch,
        stream_finish_dead _ _ _ _ _ _ hst]
    exact ⟨by simp [pyStr_str], by simp [List.filter, Fetch.isProbe]⟩
  · intro srcs ckv k siv hs hp hsi hst
    rw [stream_player_eq env srcs ckv siv k hs hp hsi,
        stream_finish_dead _ _ _ _ _ _ hst]
    exact ⟨rfl, by simp [List.filter, Fetch.isProbe]⟩

/-- C2 witness: in the concrete `'Dead'` environment, resolving channel `foo`
fails with the expected offline error after the two metadata fetches and no
probe. -/
theorem C2_witness :
    stream_real_extract (mkEnv (.str "Dead")) (.str "foo") .null [] =
      (.error (.extractor "foo is offline" true),
       [.api "https://goodgame.ru/api/getchannelstatus" [("id", "foo"), ("fmt", "json")],
        .api "https://goodgame.ru/api/player" [("src", "abc"), ("fmt", "json")]]) :=
  ((C2_offline_fails_without_probe (mkEnv (.str "Dead"))).1 "foo"
    "<iframe src=\"https://goodgame.ru/player?abc\"></iframe>" "abc" "12345"
    (mkSi (.str "Dead")) (by decide) rfl rfl rfl rfl).1

/-- C3: for every stream resolution in which the stream status field is present
but equals neither `'Live'` nor `'Dead'` — entered through either URL form —
resolution fails with the non-expected unexpected-status error (so neither the
expected offline outcome nor a silent empty result). -/
theorem C3_unexpected_status (env : Env) :
    (∀ ck html srcs k siv st, ck ≠ "" →
      env.api "https://goodgame.ru/api/getchannelstatus" [("id", ck), ("fmt", "json")]
        = .obj [(k, siv)] →
      siv.getItem "embed" = .ok (.str html) →
      env.searchSrc html = some srcs →
      siv.getItem "status" = .ok st →
      st.eqStr "Dead" = false → st.eqStr "Live" = false →
      stream_real_extract env (.str ck) .null [] =
        (.error (.extractor ("Unexpected stream status: " ++ pyStr st) false),
         [.api "https://goodgame.ru/api/getchannelstatus" [("id", ck), ("fmt", "json")],
          .api "https://goodgame.ru/api/player" [("src", srcs), ("fmt", "json")]]))
    ∧ (∀ srcs ckv k siv st, srcs ≠ "" →
      (env.api "https://goodgame.ru/api/player" [("src", srcs), ("fmt", "json")]).getItem
        "channel_key" = .ok ckv →
      env.api "https://goodgame.ru/api/getchannelstatus" [("id", pyStr ckv), ("fmt", "json")]
        = .obj [(k, siv)] →
      siv.getItem "status" = .ok st →
      st.eqStr "Dead" = false → st.eqStr "Live" = false →
      stream_real_extract env .null (.str srcs) [] =
        (.error (.extractor ("Unexpected stream status: " ++ pyStr st) false),
         [.api "https://goodgame.ru/api/player" [("src", srcs), ("fmt", "json")],
          .api "https://goodgame.ru/api/getchannelstatus" [("id", pyStr ckv), ("fmt", "json")]])) := by
  constructor
  · intro ck html srcs k siv st hck hsi hembed hsearch hst hdead hlive
    rw [stream_channel_eq env ck html srcs siv k hck hsi hembed hsearch,
        stream_finish_unexpected _ _ _ _ _ _ st hst hdead hlive]
  · intro srcs ckv k siv st hs hp hsi hst hdead hlive
    rw [stream_player_eq env srcs ckv siv k hs hp hsi,
        stream_finish_unexpected _ _ _ _ _ _ st hst hdead hlive]

/-- C3 witness: a concrete status value `'Weird'` yields the non-expected
unexpected-status error on the channel URL path. -/
theorem C3_witness :
    stream_real_extract (mkEnv (.str "Weird")) (.str "foo") .null [] =
      (.error (.extractor "Unexpected stream status: Weird" false),
       [.api "https://goodgame.ru/api/getchannelstatus" [("id", "foo"), ("fmt", "json")],
        .api "https://goodgame.ru/api/player" [("src", "abc"), ("fmt", "json")]]) :=
  (C3_unexpected_status (mkEnv (.str "Weird"))).1 "foo"
    "<iframe src=\"https://goodgame.ru/player?abc\"></iframe>" "abc" "12345"
    (mkSi (.str "Weird")) (.str "Weird") (by decide) rfl rfl rfl rfl rfl rfl

/-- C4: for every channel reference that the channel-status endpoint answers
with an empty array, stream resolution fails with the expected not-found error
naming the offending channel key — through either URL form. -/
theorem C4_not_found (env : Env) :
    (∀ ck, ck ≠ "" →
      env.api "https://goodgame.ru/api/getchannelstatus" [("id", ck), ("fmt", "json")] = .arr [] →
      stream_real_extract env (.str ck) .null [] =
        (.error (.extractor (ck ++ " is not found") true),
         [.api "https://goodgame.ru/api/getchannelstatus" [("id", ck), ("fmt", "json")]]))
    ∧ (∀ srcs ckv, srcs ≠ "" →
      (env.api "https://goodgame.ru/api/player" [("src", srcs), ("fmt", "json")]).getItem
        "channel_key" = .ok ckv →
      env.api "https://goodgame.ru/api/getchannelstatus" [("id", pyStr ckv), ("fmt", "json")]
        = .arr [] →
      stream_real_extract env .null (.str srcs) [] =
        (.error (.extractor (pyStr ckv ++ " is not found") true),
         [.api "https://goodgame.ru/api/player" [("src", srcs), ("fmt", "json")],
          .api "https://goodgame.ru/api/getchannelstatus" [("id", pyStr ckv), ("fmt", "json")]])) := by
  constructor
  · intro ck hck hsi
    simp [stream_real_extract, fetch_stream_info, M.bind_eval, fetch_gcs_eval, M.pure_eval,
          M.throw_eval, pyStr_str, truthy_str, truthy_null, String.isEmpty_iff, hck, hsi]
  · intro srcs ckv hs hp hsi
    simp [stream_real_extract, fetch_stream_info, fetch_player_info, M.bind_eval,
          fetch_gcs_eval, fetch_player_eval, M.pure_eval, M.throw_eval, pyStr_str,
          truthy_str, truthy_null, String.isEmpty_iff, hs, hp, hsi]

/-- C4 witness: in the environment whose channel-status endpoint answers an
empty array, resolving channel `foo` fails with `foo is not found` (expected). -/
theorem C4_witness :
    stream_real_extract envNF (.str "foo") .null [] =
      (.error (.extractor "foo is not found" true),
       [.api "https://goodgame.ru/api/getchannelstatus" [("id", "foo"), ("fmt", "json")]]) :=
  (C4_not_found envNF).1 "foo" (by decide) rfl

/-- C1: for an online channel (player-URL entry, status `'Live'`), the manifest
URL templates are tried in their fixed priority order — the `hls.goodgame.ru`
master template first, then the `hlss.goodgame.ru` one; the first template whose
format-probe yields a non-empty list is accepted (no later template is probed,
and any successful result carries exactly its sorted formats); and only when
every template's probe yields an empty list does resolution fail, with the
non-expected m3u8 `UpstreamError`. -/
theorem C1_template_priority (env : Env) (srcs : String) (ckv siv : JSON) (k : String)
    (hs : srcs ≠ "")
    (hp : (env.api "https://goodgame.ru/api/player" [("src", srcs), ("fmt", "json")]).getItem
        "channel_key" = .ok ckv)
    (hsi : env.api "https://goodgame.ru/api/getchannelstatus" [("id", pyStr ckv), ("fmt", "json")]
        = .obj [(k, siv)])
    (hst : siv.getItem "status" = .ok (.str "Live")) :
    (∀ f fs,
      env.m3u8 (format_src "https://hls.goodgame.ru/manifest/\x7bsrc\x7d_master.m3u8" srcs)
        = f :: fs →
      (stream_real_extract env .null (.str srcs) []).2.filter Fetch.isProbe =
        [.m3u8Probe (format_src "https://hls.goodgame.ru/manifest/\x7bsrc\x7d_master.m3u8" srcs)]
      ∧ ∀ r, (stream_real_extract env .null (.str srcs) []).1 = .ok r →
          r.formats = sort_formats (f :: fs))
    ∧ (∀ f fs,
      env.m3u8 (format_src "https://hls.goodgame.ru/manifest/\x7bsrc\x7d_master.m3u8" srcs) = [] →
      env.m3u8 (format_src "https://hlss.goodgame.ru/hls/\x7bsrc\x7d.m3u8" srcs) = f :: fs →
      (stream_real_extract env .null (.str srcs) []).2.filter Fetch.isProbe =
        [.m3u8Probe (format_src "https://hls.goodgame.ru/manifest/\x7bsrc\x7d_master.m3u8" srcs),
         .m3u8Probe (format_src "https://hlss.goodgame.ru/hls/\x7bsrc\x7d.m3u8" srcs)]
      ∧ ∀ r, (stream_real_extract env .null (.str srcs) []).1 = .ok r →
          r.formats = sort_formats (f :: fs))
    ∧ (env.m3u8 (format_src "https://hls.goodgame.ru/manifest/\x7bsrc\x7d_master.m3u8" srcs) = [] →
      env.m3u8 (format_src "https://hlss.goodgame.ru/hls/\x7bsrc\x7d.m3u8" srcs) = [] →
      stream_real_extract env .null (.str srcs) [] =
        (.error (.extractor "failed to fetch/parse m3u8" false),
         [.api "https://goodgame.ru/api/player" [("src", srcs), ("fmt", "json")],
          .api "https://goodgame.ru/api/getchannelstatus" [("id", pyStr ckv), ("fmt", "json")],
          .m3u8Probe (format_src "https://hls.goodgame.ru/manifest/\x7bsrc\x7d_master.m3u8" srcs),
          .m3u8Probe (format_src "https://hlss.goodgame.ru/hls/\x7bsrc\x7d.m3u8" srcs)])) := by
  have he := stream_player_eq env srcs ckv siv k hs hp hsi
  refine ⟨?_, ?_, ?_⟩
  · intro f fs hm0
    rw [he, stream_finish_live_first env ckv (.str srcs) siv _ _ f fs hst hm0]
    constructor
    · simp [List.filter, Fetch.isProbe, pyStr_str]
    · intro r hr
      exact (assemble_result_shape _ _ _ _ _ hr).2.2
  · intro f fs hm0 hm1
    rw [he, stream_finish_live_second env ckv (.str srcs) siv _ _ f fs hst hm0 hm1]
    constructor
    · simp [List.filter, Fetch.isProbe, pyStr_str]
    · intro r hr
      exact (assemble_result_shape _ _ _ _ _ hr).2.2
  · intro hm0 hm1
    rw [he, stream_finish_live_exhausted env ckv (.str srcs) siv _ _ hst hm0 hm1]
    simp [pyStr_str]

/-- C1 witness: in the concrete `'Live'` environment the first template's probe
succeeds, so the run probes exactly the `hls.goodgame.ru` master URL. -/
theorem C1_witness :
    (stream_real_extract (mkEnv (.str "Live")) .null (.str "abc") []).2.filter Fetch.isProbe =
      [.m3u8Probe "https://hls.goodgame.ru/manifest/abc_master.m3u8"] :=
  ((C1_template_priority (mkEnv (.str "Live")) "abc" (.str "foo") (mkSi (.str "Live")) "12345"
      (by decide) rfl rfl rfl).1
    { url := "u2", quality := 720 } [{ url := "u1", quality := 480 }] rfl).1

/-- C5: given equivalent mock API responses — the stream info for channel `ck`
holds an embed HTML from which the host regex derives the player token `srcs`,
and player info for `srcs` names `ck` as its channel key — a resolution entered
with the channel URL and a resolution entered with the player URL that both
succeed carry the same channel identity, namely `ck`, as their id. -/
theorem C5_entry_equivalence (env : Env) (ck html srcs : String) (siv : JSON) (k : String)
    (hck : ck ≠ "") (hs : srcs ≠ "")
    (hsi : env.api "https://goodgame.ru/api/getchannelstatus" [("id", ck), ("fmt", "json")]
        = .obj [(k, siv)])
    (hembed : siv.getItem "embed" = .ok (.str html))
    (hsearch : env.searchSrc html = some srcs)
    (hp : (env.api "https://goodgame.ru/api/player" [("src", srcs), ("fmt", "json")]).getItem
        "channel_key" = .ok (.str ck)) :
    ∀ r1 r2, (stream_real_extract env (.str ck) .null []).1 = .ok r1 →
      (stream_real_extract env .null (.str srcs) []).1 = .ok r2 →
      r1.id = r2.id ∧ r1.id = .str ck := by
  intro r1 r2 h1 h2
  rw [stream_channel_eq env ck html srcs siv k hck hsi hembed hsearch] at h1
  rw [stream_player_eq env srcs (.str ck) siv k hs hp hsi] at h2
  have s1 := stream_finish_ok _ _ _ _ _ _ _ h1
  have s2 := stream_finish_ok _ _ _ _ _ _ _ h2
  exact ⟨s1.1.trans s2.1.symm, s1.1⟩

/-- C5 witness: in the concrete `'Live'` environment, both entry forms resolve
to the same stream record, whose id is channel `foo` (conclusion instantiated
through the equivalence theorem). -/
theorem C5_witness :
    ({ id := .str "foo", title := .str "T", description := .null, creator := .str "S",
       uploader := .str "S", uploader_id := .num 7,
       thumbnail := .str "https://img.example/p.jpg", is_live := true,
       formats := sort_formats [{ url := "u2", quality := 720 },
                                { url := "u1", quality := 480 }] } : StreamResult).id
      = .str "foo" :=
  (C5_entry_equivalence (mkEnv (.str "Live")) "foo"
    "<iframe src=\"https://goodgame.ru/player?abc\"></iframe>" "abc" (mkSi (.str "Live")) "12345"
    (by decide) (by decide) rfl rfl rfl rfl
    { id := .str "foo", title := .str "T", description := .null, creator := .str "S",
      uploader := .str "S", uploader_id := .num 7,
      thumbnail := .str "https://img.example/p.jpg", is_live := true,
      formats := sort_formats [{ url := "u2", quality := 720 },
                               { url := "u1", quality := 480 }] }
    { id := .str "foo", title := .str "T", description := .null, creator := .str "S",
      uploader := .str "S", uploader_id := .num 7,
      thumbnail := .str "https://img.example/p.jpg", is_live := true,
      formats := sort_formats [{ url := "u2", quality := 720 },
                               { url := "u1", quality := 480 }] }
    rfl rfl).2

/-- C6: every successfully resolved live stream (player-URL entry shown; the
fields are pinned by the mocked responses) is returned with `is_live = true`,
its id the channel key, its title/description/thumbnail read from the stream
info, its creator/uploader/uploader-id read from the player info, and its format
list equal to the stable descending-quality sort of the probed formats — the
sort is descending (pairwise `≥` on quality), a permutation of the probe's
output, and stable (any descending-sorted sublist of the probe's output stays a
sublist).  The result is a value built in one pass; nothing mutates it. -/
theorem C6_resolved_shape (env : Env) (srcs : String) (ckv siv : JSON) (k : String)
    (t d c uid th : JSON) (f : Format) (fs : List Format)
    (hs : srcs ≠ "")
    (hp : (env.api "https://goodgame.ru/api/player" [("src", srcs), ("fmt", "json")]).getItem
        "channel_key" = .ok ckv)
    (hsi : env.api "https://goodgame.ru/api/getchannelstatus" [("id", pyStr ckv), ("fmt", "json")]
        = .obj [(k, siv)])
    (hst : siv.getItem "status" = .ok (.str "Live"))
    (hti : siv.getItem "title" = .ok t)
    (hde : siv.dictGet "description" = .ok d)
    (hcr : (env.api "https://goodgame.ru/api/player" [("src", srcs), ("fmt", "json")]).dictGet
        "streamer_name" = .ok c)
    (hui : (env.api "https://goodgame.ru/api/player" [("src", srcs), ("fmt", "json")]).dictGet
        "streamer_id" = .ok uid)
    (hth : siv.dictGet "img" = .ok th)
    (hm0 : env.m3u8 (format_src "https://hls.goodgame.ru/manifest/\x7bsrc\x7d_master.m3u8" srcs)
        = f :: fs) :
    (stream_real_extract env .null (.str srcs) []).1 =
      .ok { id := ckv, title := t, description := d, creator := c, uploader := c,
            uploader_id := uid, thumbnail := th, is_live := true,
            formats := sort_formats (f :: fs) }
    ∧ (sort_formats (f :: fs)).Pairwise (fun a b => b.quality ≤ a.quality)
    ∧ (sort_formats (f :: fs)).Perm (f :: fs)
    ∧ (∀ c2 : List Format, c2.Pairwise (fun a b => b.quality ≤ a.quality) →
        c2.Sublist (f :: fs) → c2.Sublist (sort_formats (f :: fs))) := by
  refine ⟨?_, sort_formats_sorted _, sort_formats_perm _,
          fun c2 hpair hsub => sort_formats_stable _ _ hpair hsub⟩
  rw [stream_player_eq env srcs ckv siv k hs hp hsi,
      stream_finish_live_first env ckv (.str srcs) siv _ _ f fs hst hm0,
      assemble_result_eval ckv siv _ (f :: fs) t d c uid th hti hde hcr hui hth]

/-- C6 witness: the concrete `'Live'` run returns exactly the assembled record
with the sorted format list. -/
theorem C6_witness :
    (stream_real_extract (mkEnv (.str "Live")) .null (.str "abc") []).1 =
      .ok { id := .str "foo", title := .str "T", description := .null, creator := .str "S",
            uploader := .str "S", uploader_id := .num 7,
            thumbnail := .str "https://img.example/p.jpg", is_live := true,
            formats := sort_formats [{ url := "u2", quality := 720 },
                                     { url := "u1", quality := 480 }] } :=
  (C6_resolved_shape (mkEnv (.str "Live")) "abc" (.str "foo") (mkSi (.str "Live")) "12345"
    (.str "T") .null (.str "S") (.num 7) (.str "https://img.example/p.jpg")
    { url := "u2", quality := 720 } [{ url := "u1", quality := 480 }]
    (by decide) rfl rfl rfl rfl rfl rfl rfl rfl rfl).1

/-- The clip extractor always performs exactly one API fetch — the clip-info
request — whatever the response holds. -/
theorem clip_log (env : Env) (clip_id : String) (log : List Fetch) :
    (clip_real_extract env clip_id log).2 =
      log ++ [.api ("https://goodgame.ru/ajax/clip/" ++ clip_id) []] := by
  simp only [clip_real_extract, M.bind_eval, fetch_clip_eval, liftE_eval, M.pure_eval]
  (repeat' split) <;> simp_all

/-- The VOD extractor either fails during vods-list handling after its single
storage fetch, or performs exactly two API fetches: the vods list, then player
info. -/
theorem vod_log (env : Env) (src ts : String) (log : List Fetch) :
    (∃ e, vod_real_extract env src ts log =
      (.error e, log ++ [.api "https://storage2.goodgame.ru/api/json/channel/video"
        [("streamId", src)]]))
    ∨ (vod_real_extract env src ts log).2 =
        log ++ [.api "https://storage2.goodgame.ru/api/json/channel/video" [("streamId", src)],
                .api "https://goodgame.ru/api/player" [("src", src), ("fmt", "json")]] := by
  rcases hv : (env.api "https://storage2.goodgame.ru/api/json/channel/video"
      [("streamId", src)]).getItem "vods" with e | vods
  · left
    exact ⟨e, by simp [vod_real_extract, M.bind_eval, fetch_storage_eval, liftE_eval,
      M.throw_eval, hv]⟩
  · rcases hf : find_vod ts vods with e | vod
    · left
      exact ⟨e, by simp [vod_real_extract, M.bind_eval, fetch_storage_eval, liftE_eval,
        M.throw_eval, hv, hf]⟩
    · right
      simp only [vod_real_extract, M.bind_eval, fetch_storage_eval, liftE_eval, M.pure_eval,
                 hv, hf, fetch_player_info, fetch_player_eval, pyStr_str]
      (repeat' split) <;> simp_all

/-- C8 counterexample: a successful VOD resolution at a concrete input performs
two API fetches (the vods list and the player info), not exactly one. -/
theorem C8_counterexample :
    (vod_real_extract (mkVodEnv vodInfoMp4) "s" "2024" []).1 =
      .ok { id := "foo - 2024", title := "2024", display_id := .str "foo",
            creator := .str "S", uploader := .str "S", uploader_id := .num 7,
            thumbnails := [{ url := "https://storage2.goodgame.ru/a.jpg", preference := 0 }],
            is_live := false, url := .str "https://storage2.goodgame.ru/v.mp4" }
    ∧ (vod_real_extract (mkVodEnv vodInfoMp4) "s" "2024" []).2 =
        [.api "https://storage2.goodgame.ru/api/json/channel/video" [("streamId", "s")],
         .api "https://goodgame.ru/api/player" [("src", "s"), ("fmt", "json")]]
    ∧ ([Fetch.api "https://storage2.goodgame.ru/api/json/channel/video" [("streamId", "s")],
        Fetch.api "https://goodgame.ru/api/player" [("src", "s"), ("fmt", "json")]].length ≠ 1) :=
  ⟨rfl, rfl, by decide⟩

/-- C8 (amended): clip lookup performs exactly one direct API call with
straight-line extraction, while VOD lookup is not a single call — every
successful VOD resolution performs exactly two API calls (vods list, then player
info); neither performs a manifest-probe fallback loop. -/
theorem C8_single_call (env : Env) :
    (∀ clip_id log, (clip_real_extract env clip_id log).2 =
      log ++ [.api ("https://goodgame.ru/ajax/clip/" ++ clip_id) []])
    ∧ (∀ src ts r, (vod_real_extract env src ts []).1 = .ok r →
      (vod_real_extract env src ts []).2 =
        [.api "https://storage2.goodgame.ru/api/json/channel/video" [("streamId", src)],
         .api "https://goodgame.ru/api/player" [("src", src), ("fmt", "json")]]) := by
  constructor
  · exact fun clip_id log => clip_log env clip_id log
  · intro src ts r h
    rcases vod_log env src ts [] with ⟨e, heq⟩ | hlog
    · rw [heq] at h
      simp at h
    · simpa using hlog

/-- C8 witness: in the concrete clip environment, looking up clip 77 logs
exactly the one clip-info fetch, and the successful concrete VOD resolution
logs exactly its two fetches. -/
theorem C8_witness :
    (clip_real_extract envClip "77" []).2 =
      [.api "https://goodgame.ru/ajax/clip/77" []]
    ∧ (vod_real_extract (mkVodEnv vodInfoMp4) "s" "2024" []).2 =
        [.api "https://storage2.goodgame.ru/api/json/channel/video" [("streamId", "s")],
         .api "https://goodgame.ru/api/player" [("src", "s"), ("fmt", "json")]] :=
  ⟨(C8_single_call envClip).1 "77" [],
   (C8_single_call (mkVodEnv vodInfoMp4)).2 "s" "2024"
     { id := "foo - 2024", title := "2024", display_id := .str "foo",
       creator := .str "S", uploader := .str "S", uploader_id := .num 7,
       thumbnails := [{ url := "https://storage2.goodgame.ru/a.jpg", preference := 0 }],
       is_live := false, url := .str "https://storage2.goodgame.ru/v.mp4" } rfl⟩

/-- C7 counterexample: a VOD entry that carries a `m3u8path` field (with a
usable media path) but no `mp4path` field makes VOD resolution fail with
`KeyError: mp4path` — the VOD media URL is not read from a field named
`m3u8path`, contradicting the claimed contractual field list. -/
theorem C7_counterexample :
    vod_real_extract (mkVodEnv vodInfoM3u8) "s" "2024" [] =
      (.error (.keyError "mp4path"),
       [.api "https://storage2.goodgame.ru/api/json/channel/video" [("streamId", "s")],
        .api "https://goodgame.ru/api/player" [("src", "s"), ("fmt", "json")]]) := rfl

/-- C7 (amended): the VOD media URL is read from the `mp4path` field (not
`m3u8path`): with `mp4path` present the resolved URL is its storage-joined
value, and with `mp4path` absent resolution fails with `KeyError: mp4path`
whatever other fields (such as `m3u8path`) the entry carries. -/
theorem C7_mp4path_read (env : Env) (src ts : String)
    (vfields pfields : List (String × JSON))
    (hresp : env.api "https://storage2.goodgame.ru/api/json/channel/video" [("streamId", src)]
        = .obj [("vods", .arr [.obj vfields])])
    (hpl : env.api "https://goodgame.ru/api/player" [("src", src), ("fmt", "json")]
        = .obj pfields)
    (hmod : vfields.lookup "moddate" = some (.str ts))
    (hprev : vfields.lookup "previewpath" = none) :
    (∀ p, vfields.lookup "mp4path" = some (.str p) →
      (vod_real_extract env src ts []).1 = .ok
        { id := pyStr (if ((pfields.lookup "channel_key").getD .null).truthy
                       then (pfields.lookup "channel_key").getD .null else .str src)
                  ++ " - " ++ ts,
          title := ts,
          display_id := (pfields.lookup "channel_key").getD .null,
          creator := (pfields.lookup "streamer_name").getD .null,
          uploader := (pfields.lookup "streamer_name").getD .null,
          uploader_id := (pfields.lookup "streamer_id").getD .null,
          thumbnails := [], is_live := false,
          url := urljoinJ STORAGE_BASE_URL (.str p) })
    ∧ (vfields.lookup "mp4path" = none →
      (vod_real_extract env src ts []).1 = .error (.keyError "mp4path")) := by
  constructor
  · intro p hmp4
    simp [vod_real_extract, M.bind_eval, fetch_storage_eval, fetch_player_info,
          fetch_player_eval, liftE_eval, M.pure_eval, M.throw_eval, pyStr_str,
          find_vod, find_vod_loop, JSON.getItem, JSON.dictGetD, JSON.dictGet,
          thumbnails_loop, THUMBNAIL_KEYS, eqStr_str, JSON.truthy,
          exBind_ok, exBind_error, exMap_ok, exMap_error,
          hresp, hpl, hmod, hprev, hmp4]
  · intro hmp4
    simp [vod_real_extract, M.bind_eval, fetch_storage_eval, fetch_player_info,
          fetch_player_eval, liftE_eval, M.pure_eval, M.throw_eval, pyStr_str,
          find_vod, find_vod_loop, JSON.getItem, JSON.dictGetD, JSON.dictGet,
          thumbnails_loop, THUMBNAIL_KEYS, eqStr_str, JSON.truthy,
          exBind_ok, exBind_error, exMap_ok, exMap_error,
          hresp, hpl, hmod, hprev, hmp4]

/-- C7 witness: a concrete VOD entry with `mp4path = /v.mp4` resolves, and its
media URL is the storage-joined `mp4path` value. -/
theorem C7_witness :
    (vod_real_extract
        (mkVodEnv (.obj [("moddate", .str "2024"), ("mp4path", .str "/v.mp4")]))
        "s" "2024" []).1 =
      .ok { id := "foo - 2024", title := "2024", display_id := .str "foo",
            creator := .str "S", uploader := .str "S", uploader_id := .num 7,
            thumbnails := [], is_live := false,
            url := .str "https://storage2.goodgame.ru/v.mp4" } :=
  ((C7_mp4path_read (mkVodEnv (.obj [("moddate", .str "2024"), ("mp4path", .str "/v.mp4")]))
      "s" "2024" [("moddate", .str "2024"), ("mp4path", .str "/v.mp4")]
      [("channel_key", .str "foo"), ("streamer_name", .str "S"), ("streamer_id", .num 7)]
      rfl rfl rfl rfl).1 "/v.mp4" rfl)

/-- C9: clip extraction succeeds exactly when the clip-info response is a dict
containing `src`; with `src` present every other field is optional — a missing
`title` falls back to the clip id and missing `streamer`/`author`/`thumbnail`/
`views`/`created` come out as `None` — and `is_live` is always `false`. -/
theorem C9_clip_src_required (env : Env) (clip_id : String) :
    ((∃ r, (clip_real_extract env clip_id []).1 = .ok r) ↔
      (∃ fields, env.api ("https://goodgame.ru/ajax/clip/" ++ clip_id) [] = .obj fields
        ∧ (fields.lookup "src").isSome = true))
    ∧ (∀ fields u, env.api ("https://goodgame.ru/ajax/clip/" ++ clip_id) [] = .obj fields →
        fields.lookup "src" = some u →
        (clip_real_extract env clip_id []).1 = .ok
          { id := clip_id,
            title := (fields.lookup "title").getD (.str clip_id),
            creator := (fields.lookup "streamer").getD .null,
            uploader := (fields.lookup "author").getD .null,
            thumbnail := (fields.lookup "thumbnail").getD .null,
            view_count := (fields.lookup "views").getD .null,
            timestamp := (fields.lookup "created").getD .null,
            is_live := false, url := u }) := by
  have hok : ∀ fields u, env.api ("https://goodgame.ru/ajax/clip/" ++ clip_id) [] = .obj fields →
      fields.lookup "src" = some u →
      (clip_real_extract env clip_id []).1 = .ok
        { id := clip_id,
          title := (fields.lookup "title").getD (.str clip_id),
          creator := (fields.lookup "streamer").getD .null,
          uploader := (fields.lookup "author").getD .null,
          thumbnail := (fields.lookup "thumbnail").getD .null,
          view_count := (fields.lookup "views").getD .null,
          timestamp := (fields.lookup "created").getD .null,
          is_live := false, url := u } := by
    intro fields u h hsrc
    simp [clip_real_extract, M.bind_eval, fetch_clip_eval, liftE_eval, M.pure_eval,
          JSON.dictGet, JSON.dictGetD, JSON.getItem, h, hsrc]
  refine ⟨⟨?_, ?_⟩, hok⟩
  · rintro ⟨r, hr⟩
    cases hresp : env.api ("https://goodgame.ru/ajax/clip/" ++ clip_id) [] with
    | obj fields =>
      cases hsrc : fields.lookup "src" with
      | some u => exact ⟨fields, rfl, by rw [hsrc]; rfl⟩
      | none =>
        have hfail : (clip_real_extract env clip_id []).1 = .error (.keyError "src") := by
          simp [clip_real_extract, M.bind_eval, fetch_clip_eval, liftE_eval, M.pure_eval,
                JSON.dictGet, JSON.dictGetD, JSON.getItem, hresp, hsrc]
        rw [hfail] at hr
        simp at hr
    | null =>
      simp [clip_real_extract, M.bind_eval, fetch_clip_eval, liftE_eval, M.pure_eval,
            JSON.dictGet, JSON.dictGetD, hresp] at hr
    | bool b =>
      simp [clip_real_extract, M.bind_eval, fetch_clip_eval, liftE_eval, M.pure_eval,
            JSON.dictGet, JSON.dictGetD, hresp] at hr
    | num n =>
      simp [clip_real_extract, M.bind_eval, fetch_clip_eval, liftE_eval, M.pure_eval,
            JSON.dictGet, JSON.dictGetD, hresp] at hr
    | str s =>
      simp [clip_real_extract, M.bind_eval, fetch_clip_eval, liftE_eval, M.pure_eval,
            JSON.dictGet, JSON.dictGetD, hresp] at hr
    | arr elems =>
      simp [clip_real_extract, M.bind_eval, fetch_clip_eval, liftE_eval, M.pure_eval,
            JSON.dictGet, JSON.dictGetD, hresp] at hr
  · rintro ⟨fields, hresp, hsome⟩
    cases hu : fields.lookup "src" with
    | none => rw [hu] at hsome; simp at hsome
    | some u => exact ⟨_, hok fields u hresp hu⟩

/-- C9 witness: the concrete clip response (with `src`, `title`, `views` but
nothing else) resolves with the title kept, `None` metadata elsewhere, and
`is_live = false`. -/
theorem C9_witness :
    (clip_real_extract envClip "77" []).1 = .ok
      { id := "77", title := .str "C", creator := .null, uploader := .null,
        thumbnail := .null, view_count := .num 5, timestamp := .null,
        is_live := false, url := .str "https://clips.example/c.mp4" } :=
  (C9_clip_src_required envClip "77").2
    [("src", .str "https://clips.example/c.mp4"), ("title", .str "C"), ("views", .num 5)]
    (.str "https://clips.example/c.mp4") rfl rfl

/-- C10: for a channel-status response that is not a list, stream-info fetching
accepts exactly the dicts with one entry — returning that entry's value whatever
its key — while a dict with any other number of entries, or any non-dict
non-list response, fails with the non-expected unexpected-response error. -/
theorem C10_single_entry_dict (env : Env) (channel_key : JSON) :
    (∀ k v, env.api "https://goodgame.ru/api/getchannelstatus"
        [("id", pyStr channel_key), ("fmt", "json")] = .obj [(k, v)] →
      fetch_stream_info env channel_key [] =
        (.ok v, [.api "https://goodgame.ru/api/getchannelstatus"
          [("id", pyStr channel_key), ("fmt", "json")]]))
    ∧ (∀ fields, env.api "https://goodgame.ru/api/getchannelstatus"
        [("id", pyStr channel_key), ("fmt", "json")] = .obj fields →
      fields.length ≠ 1 →
      fetch_stream_info env channel_key [] =
        (.error (.extractor ("Unexpected response: " ++ pyRepr (.obj fields)) false),
         [.api "https://goodgame.ru/api/getchannelstatus"
          [("id", pyStr channel_key), ("fmt", "json")]]))
    ∧ (∀ j, env.api "https://goodgame.ru/api/getchannelstatus"
        [("id", pyStr channel_key), ("fmt", "json")] = j →
      (∀ elems, j ≠ .arr elems) → (∀ fields, j ≠ .obj fields) →
      fetch_stream_info env channel_key [] =
        (.error (.extractor ("Unexpected response: " ++ pyRepr j) false),
         [.api "https://goodgame.ru/api/getchannelstatus"
          [("id", pyStr channel_key), ("fmt", "json")]])) := by
  refine ⟨?_, ?_, ?_⟩
  · intro k v h
    simp [fetch_stream_info, M.bind_eval, fetch_gcs_eval, M.pure_eval, M.throw_eval, h]
  · intro fields h hne
    match fields, hne with
    | [], _ =>
      simp [fetch_stream_info, M.bind_eval, fetch_gcs_eval, M.pure_eval, M.throw_eval, h]
    | [(k, v)], hne => exact absurd rfl hne
    | (k1, v1) :: (k2, v2) :: rest, _ =>
      simp [fetch_stream_info, M.bind_eval, fetch_gcs_eval, M.pure_eval, M.throw_eval, h]
  · intro j h hnarr hnobj
    cases j with
    | null => simp [fetch_stream_info, M.bind_eval, fetch_gcs_eval, M.pure_eval, M.throw_eval, h]
    | bool b => simp [fetch_stream_info, M.bind_eval, fetch_gcs_eval, M.pure_eval, M.throw_eval, h]
    | num n => simp [fetch_stream_info, M.bind_eval, fetch_gcs_eval, M.pure_eval, M.throw_eval, h]
    | str s => simp [fetch_stream_info, M.bind_eval, fetch_gcs_eval, M.pure_eval, M.throw_eval, h]
    | arr elems => exact absurd rfl (hnarr elems)
    | obj fields => exact absurd rfl (hnobj fields)

/-- C10 witness: the concrete one-entry channel-status response is accepted and
its sole value returned, whatever its key. -/
theorem C10_witness :
    fetch_stream_info (mkEnv (.str "Live")) (.str "foo") [] =
      (.ok (mkSi (.str "Live")),
       [.api "https://goodgame.ru/api/getchannelstatus" [("id", "foo"), ("fmt", "json")]]) :=
  (C10_single_entry_dict (mkEnv (.str "Live")) (.str "foo")).1 "12345" (mkSi (.str "Live")) rfl
